import Mathlib

/-!
Shallow embedding of `src/todo_list.py`.

The program keeps an in-memory list of task strings.  We model the state of
a `TodoList` object as the value of its `tasks` field (`List String`) and
every method as a pure function from the state to the new state together
with the list of lines it prints to the console.  Python's `list.remove`,
which raises `ValueError` when the value is absent, is modelled by an
`Except`-valued function so that reachability of the error branch can be
stated; `remove_task` therefore returns an `Except` as well.
-/

namespace TodoList

/-- The state of a `TodoList` object: the contents of its `tasks` field. -/
abbrev State := List String

/-- `TodoList.__init__`: the `tasks` field starts out as the empty list. -/
def init : State := []

/-- `TodoList.add_task`: `self.tasks.append(task)` followed by
`print(f"Added task: {task}")`.  Returns the new state and the printed lines. -/
def add_task (tasks : State) (task : String) : State × List String :=
  (tasks ++ [task], ["Added task: " ++ task])

/-- Removal of the first element equal to `x`, the effect of Python's
`list.remove` when the value is present. -/
def eraseFirst (l : List String) (x : String) : List String :=
  match l with
  | [] => []
  | a :: as => if a = x then as else a :: eraseFirst as x

/-- Python's `list.remove(x)`: deletes the first element equal to `x`,
raises `ValueError` when `x` does not occur in the list. -/
def pyListRemove (l : List String) (x : String) : Except String (List String) :=
  if x ∈ l then .ok (eraseFirst l x) else .error "ValueError"

/-- `TodoList.remove_task`: `if task in self.tasks:` then
`self.tasks.remove(task)` and `print(f"Removed task: {task}")`, otherwise
`print(f"Task not found: {task}")`.  An `Except.error` result would mean an
uncaught Python exception escaping the method. -/
def remove_task (tasks : State) (task : String) : Except String (State × List String) :=
  if task ∈ tasks then
    match pyListRemove tasks task with
    | .ok l => .ok (l, ["Removed task: " ++ task])
    | .error e => .error e
  else
    .ok (tasks, ["Task not found: " ++ task])

/-- `TodoList.show_tasks`: `print("Todo List:")` then one line `- {task}`
per task, in list order; the `tasks` field is not modified. -/
def show_tasks (tasks : State) : State × List String :=
  (tasks, "Todo List:" :: tasks.map (fun task => "- " ++ task))

/-- A sequence of `add_task` calls, one per element, in order. -/
def addAll (tasks : State) : List String → State
  | [] => tasks
  | t :: ts => addAll (add_task tasks t).1 ts

/-- When `x` does not occur in `l₁`, erasing the first occurrence of `x`
from `l₁ ++ x :: l₂` removes exactly that middle element. -/
theorem eraseFirst_append_cons (l₁ l₂ : List String) (x : String) (h : x ∉ l₁) :
    eraseFirst (l₁ ++ x :: l₂) x = l₁ ++ l₂ := by
  induction l₁ with
  | nil => simp [eraseFirst]
  | cons a as ih =>
    have ha : a ≠ x := by
      intro hax
      exact h (by simp [hax])
    have has : x ∉ as := fun hx => h (List.mem_cons_of_mem a hx)
    simp [eraseFirst, ha, ih has]

/-- Erasing the first occurrence yields a sublist of the original list, so
the relative order of the remaining elements is preserved. -/
theorem eraseFirst_sublist (l : List String) (x : String) :
    List.Sublist (eraseFirst l x) l := by
  induction l with
  | nil => simp [eraseFirst]
  | cons a as ih =>
    by_cases hax : a = x
    · simp [eraseFirst, hax]
    · simpa [eraseFirst, hax] using List.Sublist.cons₂ a ih

/-- Auxiliary: `addAll` adds exactly one element per call, from any start. -/
theorem addAll_length_aux (ts : List String) :
    ∀ tasks : State, (addAll tasks ts).length = tasks.length + ts.length := by
  induction ts with
  | nil => intro tasks; simp [addAll]
  | cons t ts ih =>
    intro tasks
    simp [addAll, ih, add_task]
    omega

/-- C1: for every task list and every task `t` occurring in it (written as a
split `l₁ ++ t :: l₂` with no earlier occurrence of `t`), `remove_task t`
succeeds, deletes exactly that first occurrence (later equal occurrences in
`l₂` remain), shrinks the length by exactly one, and prints a confirmation
notice containing `t`. -/
theorem remove_task_removes_first (l₁ l₂ : List String) (t : String) (hnot : t ∉ l₁) :
    remove_task (l₁ ++ t :: l₂) t = .ok (l₁ ++ l₂, ["Removed task: " ++ t]) ∧
    (l₁ ++ l₂).length + 1 = (l₁ ++ t :: l₂).length ∧
    ∃ s, ("Removed task: " ++ t) = s ++ t := by
  have hmem : t ∈ l₁ ++ t :: l₂ := by simp
  refine ⟨?_, by simp; omega, ⟨"Removed task: ", rfl⟩⟩
  simp [remove_task, pyListRemove, hmem, eraseFirst_append_cons l₁ l₂ t hnot]

/-- Witness for C1: removing `"a"` from `["a", "b", "a"]` deletes only the
first `"a"` and leaves `["b", "a"]`. -/
theorem remove_task_removes_first_witness :
    ("a" ∉ ([] : List String)) ∧
    (remove_task ["a", "b", "a"] "a" = .ok (["b", "a"], ["Removed task: " ++ "a"]) ∧
     (["b", "a"] : List String).length + 1 = (["a", "b", "a"] : List String).length ∧
     ∃ s, ("Removed task: " ++ "a") = s ++ "a") :=
  ⟨by decide, remove_task_removes_first [] ["b", "a"] "a" (by decide)⟩

/-- C2: for every task list and every task `t` not occurring in it,
`remove_task t` returns the state unchanged, prints exactly
`Task not found: <task>`, and raises no exception (the result is `.ok`). -/
theorem remove_task_not_found (tasks : State) (t : String) (h : t ∉ tasks) :
    remove_task tasks t = .ok (tasks, ["Task not found: " ++ t]) := by
  simp [remove_task, h]

/-- Witness for C2: removing `"b"` from `["a"]` leaves the list unchanged
and reports `Task not found: b`. -/
theorem remove_task_not_found_witness :
    ("b" ∉ (["a"] : List String)) ∧
    remove_task ["a"] "b" = .ok (["a"], ["Task not found: " ++ "b"]) :=
  ⟨by decide, remove_task_not_found ["a"] "b" (by decide)⟩

/-- C3: for every task list and every task `t`, `add_task t` succeeds (it
is a total function in this model, as in the code, which cannot raise),
produces the old sequence with `t` appended, and prints a confirmation
notice that includes `t`. -/
theorem add_task_appends (tasks : State) (t : String) :
    add_task tasks t = (tasks ++ [t], ["Added task: " ++ t]) ∧
    ∃ s, ("Added task: " ++ t) = s ++ t :=
  ⟨rfl, ⟨"Added task: ", rfl⟩⟩

/-- C4: a fresh `TodoList` followed by any sequence of `add_task` calls and
no removes has length equal to the number of adds. -/
theorem addAll_length (ts : List String) : (addAll init ts).length = ts.length := by
  have h := addAll_length_aux ts init
  simpa [init] using h

/-- C5: `show_tasks` does not mutate the task list, and prints the tasks
one per line in current list order, each line carrying the `- ` marker. -/
theorem show_tasks_no_mutation (tasks : State) :
    (show_tasks tasks).1 = tasks ∧
    (show_tasks tasks).2 = "Todo List:" :: tasks.map (fun task => "- " ++ task) :=
  ⟨rfl, rfl⟩

/-- C6: two consecutive `show_tasks` calls with no mutation in between
produce identical console output. -/
theorem show_tasks_idempotent (tasks : State) :
    (show_tasks (show_tasks tasks).1).2 = (show_tasks tasks).2 := rfl

/-- C7: the concrete `__main__` sequence: after adding `"Buy groceries"`
then `"Pay bills"` the list is exactly those two tasks in order, and after
the subsequent remove of `"Pay bills"` (the intervening `show_tasks` does
not change the state) the list is exactly `["Buy groceries"]`. -/
theorem main_scenario :
    (add_task (add_task init "Buy groceries").1 "Pay bills").1 =
      ["Buy groceries", "Pay bills"] ∧
    remove_task (show_tasks
        (add_task (add_task init "Buy groceries").1 "Pay bills").1).1 "Pay bills" =
      .ok (["Buy groceries"], ["Removed task: Pay bills"]) := by
  constructor
  · rfl
  · simp [init, add_task, show_tasks, remove_task, pyListRemove, eraseFirst]

/-- C8: no uniqueness invariant: adding a task `t` already present still
appends a second copy (the count of `t` is at least two afterwards), and
every operation preserves the insertion order of the elements it does not
delete (`add_task` keeps the old list as a sublist, `remove_task`'s
deletion yields a sublist of the original, `show_tasks` keeps the state). -/
theorem no_uniqueness_invariant (tasks : State) (t u : String) (h : t ∈ tasks) :
    (add_task tasks t).1 = tasks ++ [t] ∧
    2 ≤ (add_task tasks t).1.count t ∧
    List.Sublist tasks (add_task tasks u).1 ∧
    List.Sublist (eraseFirst tasks u) tasks ∧
    (show_tasks tasks).1 = tasks := by
  refine ⟨rfl, ?_, ?_, eraseFirst_sublist tasks u, rfl⟩
  · have hpos : 0 < tasks.count t := List.count_pos_iff.mpr h
    have hc : (tasks ++ [t]).count t = tasks.count t + 1 := by simp
    simp only [add_task, hc]
    omega
  · simp [add_task]

/-- Witness for C8: adding `"a"` to `["a"]`, which already contains it,
yields `["a", "a"]` with two copies. -/
theorem no_uniqueness_invariant_witness :
    ("a" ∈ (["a"] : List String)) ∧
    ((add_task ["a"] "a").1 = ["a"] ++ ["a"] ∧
     2 ≤ (add_task ["a"] "a").1.count "a" ∧
     List.Sublist ["a"] (add_task ["a"] "b").1 ∧
     List.Sublist (eraseFirst ["a"] "b") ["a"] ∧
     (show_tasks ["a"]).1 = ["a"]) :=
  ⟨by decide, no_uniqueness_invariant ["a"] "a" "b" (by decide)⟩

/-- C9: the inner `self.tasks.remove(task)` runs only under the membership
guard, where Python's `list.remove` cannot raise (it returns `.ok`), so
`remove_task` is total: it returns `.ok` on every input. -/
theorem remove_task_total (tasks : State) (t : String) :
    (t ∈ tasks → ∃ l, pyListRemove tasks t = .ok l) ∧
    ∃ r, remove_task tasks t = .ok r := by
  constructor
  · intro h
    exact ⟨eraseFirst tasks t, by simp [pyListRemove, h]⟩
  · by_cases h : t ∈ tasks
    · exact ⟨(eraseFirst tasks t, ["Removed task: " ++ t]),
        by simp [remove_task, pyListRemove, h]⟩
    · exact ⟨(tasks, ["Task not found: " ++ t]), by simp [remove_task, h]⟩

/-- Witness for C9: on `["a"]` both conjuncts hold at the member `"a"`. -/
theorem remove_task_total_witness :
    (∃ l, pyListRemove ["a"] "a" = .ok l) ∧
    ∃ r, remove_task ["a"] "a" = .ok r :=
  ⟨(remove_task_total ["a"] "a").1 (by decide), (remove_task_total ["a"] "a").2⟩

/-- C10: `show_tasks` always prints the header line `Todo List:` first, and
on the empty list its output is exactly that single line. -/
theorem show_tasks_header (tasks : State) :
    (show_tasks tasks).2.head? = some "Todo List:" ∧
    (show_tasks init).2 = ["Todo List:"] :=
  ⟨rfl, rfl⟩

end TodoList
